import Mathlib

/-!
# todoWebsite: session-authenticated todo CRUD over a relational store

A shallow embedding of `server.js` (the passport verify callbacks, the
register route and the four `/api/todos` routes) and of the `logout` action of
`src/components/App.jsx`.

The two tables are lists of rows and every SQL statement of `server.js` is one
function on the store. A handler maps the request data and the store to a
response and the next store. The repository ships no table declarations, so
the store carries no declarative constraint: whatever uniqueness or validation
holds is what the handlers themselves enforce. A statement whose parameter the
store rejects (an id outside the integer type of the id column, a text holding
the character U+0000) throws, and the `catch` branch of the handler answers
500 with the store as it was.
-/

namespace TodoWebsite

/-! ## Data model -/

/-- Row of table `users`; `google_id` and `password` are NULL when absent. -/
structure UserRow where
  id : Nat
  google_id : Option String
  email : String
  password : Option String
  name : String
deriving DecidableEq, Repr

/-- Row of table `todos`. The columns `text` and `completed` are nullable here
because the update statement assigns them from request fields that may be
absent. -/
structure TodoRow where
  id : Nat
  text : Option String
  completed : Option Bool
  user_id : Nat
  created_at : Nat
deriving DecidableEq, Repr

/-- The relational store: both tables and the two id sequences. -/
structure Store where
  users : List UserRow
  todos : List TodoRow
  users_id_seq : Nat
  todos_id_seq : Nat
deriving DecidableEq, Repr

/-- JSON bodies the handlers send. -/
inductive Body where
  | message (m : String)
  | todos (rows : List TodoRow)
  | todo (row : Option TodoRow)
  | registered (id : Nat) (email : String) (name : String)
  | user (u : UserRow)
deriving DecidableEq, Repr

/-- HTTP response: status code and JSON body. -/
structure Response where
  status : Nat
  body : Body
deriving DecidableEq, Repr

/-- The two functions of the password-hash library used by `server.js`:
`bcrypt.hash(password, rounds)` and `bcrypt.compare(password, hash)`. -/
structure Bcrypt where
  hash : String → Nat → String
  compare : String → String → Bool

/-- The fields of the provider profile read by the Google verify callback:
`profile.id`, `profile.emails[0].value`, `profile.displayName`. -/
structure GoogleProfile where
  id : String
  email : String
  displayName : String
deriving DecidableEq, Repr

/-- Body of `PUT /api/todos/:id`: either field may be absent. -/
structure UpdateBody where
  text : Option String
  completed : Option Bool
deriving DecidableEq, Repr

/-- Modelled from the spec: the declaration of table `todos` is not in the
repository. Section 3 gives a todo a numeric id; `idBound` is the first value
the integer type of column `todos.id` does not hold (2^31 for a 32-bit serial
column, 2^63 for a 64-bit one). -/
structure Schema where
  idBound : Nat
deriving DecidableEq, Repr

/-- The character U+0000, which the store accepts in no text value. -/
def nul : Char := Char.ofNat 0

/-- Whether the store accepts a text parameter: NULL (an absent field), or a
string without U+0000. -/
def textAccepted : Option String → Bool
  | none => true
  | some t => t.data.all (fun c => c != nul)

/-- Whether the store accepts an id parameter compared with column `todos.id`. -/
def idAccepted (sch : Schema) (id : Nat) : Bool := decide (id < sch.idBound)

/-- Call `await client.query(...)` inside a `try`: the statement runs when the
store accepts its parameters; otherwise the driver throws and control passes
to the `catch`. -/
def query {α : Type} (accepted : Bool) (run : α) : Except String α :=
  if accepted then .ok run else .error "rejected parameter"

/-- The characters `String.prototype.trim` removes, by code point (white space
and line terminators of ECMAScript); `InputArea.handleClick` calls `trim` to
tell a blank text. -/
def isJsWhitespace (c : Char) : Bool :=
  [9, 10, 11, 12, 13, 32, 160, 5760, 8192, 8193, 8194, 8195, 8196, 8197, 8198, 8199,
    8200, 8201, 8202, 8232, 8233, 8239, 8287, 12288, 65279].contains c.toNat

/-- A text that is empty or consists only of whitespace:
`text.trim().length === 0`. -/
def isBlank (text : String) : Bool := text.data.all isJsWhitespace

/-! ## SQL statements of `server.js` -/

/-- Statement `SELECT * FROM users WHERE google_id = $1` -/
def selectUsersByGoogleId (s : Store) (gid : String) : List UserRow :=
  s.users.filter (fun u => u.google_id = some gid)

/-- Statement `SELECT * FROM users WHERE email = $1` -/
def selectUsersByEmail (s : Store) (email : String) : List UserRow :=
  s.users.filter (fun u => u.email = email)

/-- Statement `SELECT * FROM users WHERE id = $1` -/
def selectUsersById (s : Store) (id : Nat) : List UserRow :=
  s.users.filter (fun u => u.id = id)

/-- Modelled from the spec: the declaration of table `users` is not in the
repository; the id of a new row is generated (section 3, "numeric id"), taken
here from the table's sequence, and a column the statement does not name is
NULL. Statement:
`INSERT INTO users (google_id, email, name) VALUES ($1, $2, $3) RETURNING *` -/
def insertGoogleUser (s : Store) (gid email name : String) : UserRow × Store :=
  let row : UserRow :=
    { id := s.users_id_seq + 1, google_id := some gid, email := email,
      password := none, name := name }
  (row, { s with users := s.users ++ [row], users_id_seq := s.users_id_seq + 1 })

/-- Modelled from the spec: the declaration of table `users` is not in the
repository; the id of a new row is generated, taken here from the table's
sequence, and `google_id` is NULL. Statement:
`INSERT INTO users (email, password, name) VALUES ($1, $2, $3) RETURNING id, email, name` -/
def insertLocalUser (s : Store) (email hashed name : String) : UserRow × Store :=
  let row : UserRow :=
    { id := s.users_id_seq + 1, google_id := none, email := email,
      password := some hashed, name := name }
  (row, { s with users := s.users ++ [row], users_id_seq := s.users_id_seq + 1 })

/-- The order of `ORDER BY created_at DESC`. -/
def newerOrEqual (a b : TodoRow) : Prop := b.created_at ≤ a.created_at

instance : DecidableRel newerOrEqual := fun a b =>
  inferInstanceAs (Decidable (b.created_at ≤ a.created_at))

instance : IsTotal TodoRow newerOrEqual := ⟨fun a b => Nat.le_total b.created_at a.created_at⟩

instance : IsTrans TodoRow newerOrEqual := ⟨fun _ _ _ hab hbc => Nat.le_trans hbc hab⟩

/-- Clause `ORDER BY created_at DESC`: newest first. -/
def orderByCreatedAtDesc (rows : List TodoRow) : List TodoRow :=
  rows.insertionSort newerOrEqual

/-- Statement `SELECT * FROM todos WHERE user_id = $1 ORDER BY created_at DESC` -/
def selectTodos (s : Store) (uid : Nat) : List TodoRow :=
  orderByCreatedAtDesc (s.todos.filter (fun t => t.user_id = uid))

/-- Modelled from the spec: the declaration of table `todos` is not in the
repository; per section 4.2 an insert has a generated id, `completed = false`
and creation timestamp = now, where `now` is the database clock at the insert.
Statement: `INSERT INTO todos (text, user_id) VALUES ($1, $2) RETURNING *` -/
def insertTodo (now : Nat) (s : Store) (text : Option String) (uid : Nat) :
    TodoRow × Store :=
  let row : TodoRow :=
    { id := s.todos_id_seq + 1, text := text, completed := some false,
      user_id := uid, created_at := now }
  (row, { s with todos := s.todos ++ [row], todos_id_seq := s.todos_id_seq + 1 })

/-- Statement `DELETE FROM todos WHERE id = $1 AND user_id = $2` -/
def deleteTodo (s : Store) (id uid : Nat) : Store :=
  { s with todos := s.todos.filter (fun t => ¬ (t.id = id ∧ t.user_id = uid)) }

/-- Assignment part of the update statement: `SET text = $1, completed = $2`. -/
def setTextCompleted (text : Option String) (completed : Option Bool) (t : TodoRow) :
    TodoRow :=
  { t with text := text, completed := completed }

/-- Statement `UPDATE todos SET text = $1, completed = $2 WHERE id = $3 AND user_id = $4 RETURNING *`;
an `undefined` parameter reaches the database as NULL. -/
def updateTodo (s : Store) (text : Option String) (completed : Option Bool)
    (id uid : Nat) : List TodoRow × Store :=
  let hit : TodoRow → Bool := fun t => t.id = id ∧ t.user_id = uid
  let assign : TodoRow → TodoRow := fun t =>
    if hit t then setTextCompleted text completed t else t
  ((s.todos.filter hit).map (setTextCompleted text completed),
   { s with todos := s.todos.map assign })

/-! ## Authentication -/

/-- Google strategy verify callback: look the user up by provider id, insert
a new user when there is none; the result is the user given to `done`. -/
def googleVerify (profile : GoogleProfile) (s : Store) : UserRow × Store :=
  match selectUsersByGoogleId s profile.id with
  | u :: _ => (u, s)
  | [] => insertGoogleUser s profile.id profile.email profile.displayName

/-- JavaScript `!user.password` on a nullable text column: NULL and the empty
string are falsy. -/
def noPassword : Option String → Bool
  | none => true
  | some p => p = ""

/-- Local strategy verify callback: `.ok user` is `done(null, user)`,
`.error m` is `done(null, false, { message: m })`. -/
def localVerify (B : Bcrypt) (email password : String) (s : Store) :
    Except String UserRow :=
  match selectUsersByEmail s email with
  | [] => .error "User not found"
  | user :: _ =>
    if noPassword user.password then .error "Please use Google login"
    else if B.compare password (user.password.getD "") then .ok user
    else .error "Invalid password"

/-- Hook `passport.serializeUser`: the session keeps the user's id. -/
def serializeUser (id : Nat) : Nat := id

/-- Route `POST /auth/register`. The third component is the session established by
`req.login` (the serialized user id), `none` when `req.login` is not reached. -/
def register (B : Bcrypt) (email password name : String) (s : Store) :
    Response × Store × Option Nat :=
  if (selectUsersByEmail s email).length > 0 then
    (⟨400, .message "User already exists"⟩, s, none)
  else
    let hashedPassword := B.hash password 10
    let (newUser, s1) := insertLocalUser s email hashedPassword name
    (⟨200, .registered newUser.id newUser.email newUser.name⟩, s1,
      some (serializeUser newUser.id))

/-- Route `POST /auth/login`: `passport.authenticate('local')`. The local
strategy answers 400 when the email or the password is missing or empty,
before the verify callback runs; it answers 401 when the verify callback
reports a failure; otherwise the user is logged in and the route sends the
user. -/
def login (B : Bcrypt) (email password : String) (s : Store) :
    Response × Option Nat :=
  if email = "" ∨ password = "" then (⟨400, .message "Bad Request"⟩, none)
  else
    match localVerify B email password s with
    | .ok u => (⟨200, .user u⟩, some (serializeUser u.id))
    | .error _ => (⟨401, .message "Unauthorized"⟩, none)

/-- The `isAuthenticated` middleware: `user` is `req.user`, present exactly
when the request carries an authenticated session. -/
def isAuthenticated (user : Option UserRow)
    (next : UserRow → Store → Response × Store) (s : Store) : Response × Store :=
  match user with
  | some u => next u s
  | none => (⟨401, .message "Not authenticated"⟩, s)

/-! ## Todo routes -/

/-- Route `GET /api/todos`. The only parameter of the statement is
`req.user.id`, read from a row of `users`, which the store accepts. -/
def getTodos (user : Option UserRow) (s : Store) : Response × Store :=
  isAuthenticated user
    (fun u s =>
      match query true (selectTodos s u.id) with
      | .ok rows => (⟨200, .todos rows⟩, s)
      | .error _ => (⟨500, .message "Server error"⟩, s)) s

/-- Route `POST /api/todos`; `text` is `req.body.text`, `now` the database clock. -/
def postTodo (now : Nat) (user : Option UserRow) (text : Option String) (s : Store) :
    Response × Store :=
  isAuthenticated user
    (fun u s =>
      match query (textAccepted text) (insertTodo now s text u.id) with
      | .ok (row, s1) => (⟨200, .todo (some row)⟩, s1)
      | .error _ => (⟨500, .message "Server error"⟩, s)) s

/-- Route `DELETE /api/todos/:id`; `id` is `req.params.id`. -/
def deleteTodoRoute (sch : Schema) (user : Option UserRow) (id : Nat) (s : Store) :
    Response × Store :=
  isAuthenticated user
    (fun u s =>
      match query (idAccepted sch id) (deleteTodo s id u.id) with
      | .ok s1 => (⟨200, .message "Todo deleted"⟩, s1)
      | .error _ => (⟨500, .message "Server error"⟩, s)) s

/-- Route `PUT /api/todos/:id`: the response is `result.rows[0]`, absent when no row
matched. -/
def putTodo (sch : Schema) (user : Option UserRow) (id : Nat) (body : UpdateBody)
    (s : Store) : Response × Store :=
  isAuthenticated user
    (fun u s =>
      match query (idAccepted sch id && textAccepted body.text)
          (updateTodo s body.text body.completed id u.id) with
      | .ok (rows, s1) => (⟨200, .todo rows.head?⟩, s1)
      | .error _ => (⟨500, .message "Server error"⟩, s)) s

/-! ## Client state controller (`App.jsx`) -/

/-- Entry of the client's `items` state: `{ id, text }`. -/
structure Item where
  id : Nat
  text : Option String
deriving DecidableEq, Repr

/-- State of the `App` component. -/
structure AppState where
  user : Option UserRow
  items : List Item
  loading : Bool
deriving DecidableEq, Repr

/-- Outcome of an awaited axios request: the promise resolves, or it rejects
(network failure or a non-2xx status). -/
inductive Outcome where
  | resolved
  | rejected
deriving DecidableEq, Repr

/-- The `logout` action of `App.jsx`: both setters run after the awaited POST,
inside the `try`; the `catch` branch only logs. -/
def logout (post : Outcome) (st : AppState) : AppState :=
  match post with
  | .resolved => { st with user := none, items := [] }
  | .rejected => st

/-- No two rows of table `users` share an email. -/
def emailsUnique (s : Store) : Prop :=
  (s.users.map (fun u => u.email)).Nodup

instance (s : Store) : Decidable (emailsUnique s) := by
  unfold emailsUnique; infer_instance

/-! ## Sample data -/

/-- Sample password-hash library: the hash tags the password, compare checks
the tag. -/
def sampleBcrypt : Bcrypt :=
  { hash := fun p _ => "$2b$" ++ p, compare := fun p h => h = "$2b$" ++ p }

/-- Sample schema: `todos.id` is a 32-bit serial column. -/
def serialSchema : Schema := ⟨2147483648⟩

/-- Sample schema: `todos.id` is a 64-bit serial column. -/
def bigserialSchema : Schema := ⟨9223372036854775808⟩

/-- Sample password-hash library whose hash is the empty string and whose
compare accepts everything. -/
def emptyHashBcrypt : Bcrypt :=
  { hash := fun _ _ => "", compare := fun _ _ => true }

/-- Sample user Ann, registered locally. -/
def ann : UserRow :=
  { id := 1, google_id := none, email := "a@x.com", password := some "$2b$pw123456",
    name := "Ann" }

/-- Sample user Bob, registered locally. -/
def bob : UserRow :=
  { id := 2, google_id := none, email := "b@x.com", password := some "$2b$hunter22",
    name := "Bob" }

/-- Sample todo of Ann, created at time 10. -/
def milk : TodoRow :=
  { id := 1, text := some "Buy milk", completed := some false, user_id := 1, created_at := 10 }

/-- Sample todo of Ann, created at time 20, completed. -/
def dog : TodoRow :=
  { id := 2, text := some "Walk dog", completed := some true, user_id := 1, created_at := 20 }

/-- Sample todo of Bob, created at time 15. -/
def rent : TodoRow :=
  { id := 3, text := some "Pay rent", completed := some false, user_id := 2, created_at := 15 }

/-- Sample store: two users, three todos. -/
def sampleStore : Store :=
  { users := [ann, bob], todos := [milk, dog, rent], users_id_seq := 2, todos_id_seq := 3 }

/-! ## Helper lemmas on the statements -/

theorem filter_map_of_fixed {α : Type} (p : α → Bool) (f : α → α)
    (hp : ∀ x, p (f x) = p x) (hf : ∀ x, p x = true → f x = x) (l : List α) :
    (l.map f).filter p = l.filter p := by
  induction l with
  | nil => rfl
  | cons x l ih =>
    cases h : p x with
    | false =>
      have h2 : p (f x) = false := (hp x).trans h
      rw [List.map_cons, List.filter_cons_of_neg (by simp [h2]),
        List.filter_cons_of_neg (by simp [h]), ih]
    | true =>
      have h2 : p (f x) = true := (hp x).trans h
      rw [List.map_cons, List.filter_cons_of_pos h2, List.filter_cons_of_pos h, ih, hf x h]

theorem filter_filter_of_imp {α : Type} (p q : α → Bool)
    (h : ∀ x, p x = true → q x = true) (l : List α) :
    (l.filter q).filter p = l.filter p := by
  rw [List.filter_filter]
  apply List.filter_congr
  intro x _
  cases hp : p x with
  | false => rfl
  | true => simp [h x hp]

theorem filter_owner_delete (l : List TodoRow) (a b id : Nat) (hab : a ≠ b) :
    (l.filter (fun t => ¬ (t.id = id ∧ t.user_id = b))).filter (fun t => t.user_id = a)
      = l.filter (fun t => t.user_id = a) := by
  apply filter_filter_of_imp
  intro t ht
  have ha : t.user_id = a := by simpa using ht
  have hb : ¬ (t.id = id ∧ t.user_id = b) := fun h => hab (ha.symm.trans h.2)
  exact decide_eq_true hb

theorem filter_owner_update (l : List TodoRow) (a b id : Nat) (hab : a ≠ b)
    (text : Option String) (completed : Option Bool) :
    (l.map (fun t => if (decide (t.id = id ∧ t.user_id = b)) = true
        then setTextCompleted text completed t else t)).filter (fun t => t.user_id = a)
      = l.filter (fun t => t.user_id = a) := by
  apply filter_map_of_fixed
  · intro t
    by_cases hb : (t.id = id ∧ t.user_id = b)
    · rw [if_pos (by simpa using hb)]; rfl
    · rw [if_neg (by simpa using hb)]
  · intro t ht
    have ha : t.user_id = a := by simpa using ht
    have hb : ¬ (t.id = id ∧ t.user_id = b) := fun h => hab (ha.symm.trans h.2)
    rw [if_neg (by simpa using hb)]

/-! ## Helper lemmas on the routes -/

theorem postTodo_accepted (now : Nat) (u : UserRow) (text : Option String) (s : Store)
    (h : textAccepted text = true) :
    postTodo now (some u) text s
      = (⟨200, .todo (some (insertTodo now s text u.id).1)⟩, (insertTodo now s text u.id).2) := by
  simp [postTodo, isAuthenticated, query, h]

theorem deleteTodoRoute_accepted (sch : Schema) (u : UserRow) (id : Nat) (s : Store)
    (h : idAccepted sch id = true) :
    deleteTodoRoute sch (some u) id s
      = (⟨200, .message "Todo deleted"⟩, deleteTodo s id u.id) := by
  simp [deleteTodoRoute, isAuthenticated, query, h]

theorem deleteTodoRoute_rejected (sch : Schema) (u : UserRow) (id : Nat) (s : Store)
    (h : idAccepted sch id = false) :
    deleteTodoRoute sch (some u) id s = (⟨500, .message "Server error"⟩, s) := by
  simp [deleteTodoRoute, isAuthenticated, query, h]

theorem putTodo_accepted (sch : Schema) (u : UserRow) (id : Nat) (body : UpdateBody)
    (s : Store) (h : (idAccepted sch id && textAccepted body.text) = true) :
    putTodo sch (some u) id body s
      = (⟨200, .todo (updateTodo s body.text body.completed id u.id).1.head?⟩,
         (updateTodo s body.text body.completed id u.id).2) := by
  simp only [putTodo, isAuthenticated, query, h, if_true]

theorem putTodo_rejected (sch : Schema) (u : UserRow) (id : Nat) (body : UpdateBody)
    (s : Store) (h : (idAccepted sch id && textAccepted body.text) = false) :
    putTodo sch (some u) id body s = (⟨500, .message "Server error"⟩, s) := by
  simp [putTodo, isAuthenticated, query, h]

/-- A blank text holds no U+0000, so the store accepts it. -/
theorem textAccepted_of_isBlank (text : String) (h : isBlank text = true) :
    textAccepted (some text) = true := by
  unfold textAccepted
  unfold isBlank at h
  rw [List.all_eq_true] at h ⊢
  intro c hc
  have hw := h c hc
  by_cases hcn : c = nul
  · rw [hcn] at hw
    exact absurd hw (by decide)
  · simpa using hcn

/-! ## Theorems -/

/-- C1: for distinct users A and B, the list answered to B holds no todo owned
by A, and an update or a delete issued by B, for any id and any body, leaves
the todos owned by A exactly as they were (same rows, same order). -/
theorem todos_isolated_between_users (sch : Schema) (s : Store) (a b : UserRow)
    (hab : a.id ≠ b.id) (id : Nat) (body : UpdateBody) :
    (∃ rows, (getTodos (some b) s).1 = ⟨200, .todos rows⟩ ∧ ∀ t ∈ rows, t.user_id ≠ a.id) ∧
    (putTodo sch (some b) id body s).2.todos.filter (fun t => t.user_id = a.id)
      = s.todos.filter (fun t => t.user_id = a.id) ∧
    (deleteTodoRoute sch (some b) id s).2.todos.filter (fun t => t.user_id = a.id)
      = s.todos.filter (fun t => t.user_id = a.id) := by
  refine ⟨⟨selectTodos s b.id, rfl, ?_⟩, ?_, ?_⟩
  · intro t ht hta
    have hmem : t ∈ s.todos.filter (fun t => t.user_id = b.id) :=
      (List.perm_insertionSort _ _).subset ht
    have htb : t.user_id = b.id := by simpa using (List.mem_filter.mp hmem).2
    exact hab (hta.symm.trans htb)
  · cases h : (idAccepted sch id && textAccepted body.text) with
    | true =>
      rw [putTodo_accepted sch b id body s h]
      exact filter_owner_update s.todos a.id b.id id hab body.text body.completed
    | false => rw [putTodo_rejected sch b id body s h]
  · cases h : idAccepted sch id with
    | true =>
      rw [deleteTodoRoute_accepted sch b id s h]
      exact filter_owner_delete s.todos a.id b.id id hab
    | false => rw [deleteTodoRoute_rejected sch b id s h]

/-- Witness for C1: Bob (id 2) lists, updates and deletes against todo 1 of
Ann (id 1). -/
theorem todos_isolated_between_users_witness :
    (∃ rows, (getTodos (some bob) sampleStore).1 = ⟨200, .todos rows⟩ ∧
      ∀ t ∈ rows, t.user_id ≠ ann.id) ∧
    (putTodo serialSchema (some bob) 1 ⟨some "hacked", some true⟩ sampleStore).2.todos.filter
        (fun t => t.user_id = ann.id)
      = sampleStore.todos.filter (fun t => t.user_id = ann.id) ∧
    (deleteTodoRoute serialSchema (some bob) 1 sampleStore).2.todos.filter
        (fun t => t.user_id = ann.id)
      = sampleStore.todos.filter (fun t => t.user_id = ann.id) :=
  todos_isolated_between_users serialSchema sampleStore ann bob (by decide) 1
    ⟨some "hacked", some true⟩

/-- C2: without an authenticated session each of the four todo routes answers
401 "Not authenticated" and returns the store it was given; the answer is the
same constant for every store, so no statement is run against it. -/
theorem unauthenticated_todo_routes_401 (sch : Schema) (s : Store) (now id : Nat)
    (text : Option String) (body : UpdateBody) :
    getTodos none s = (⟨401, .message "Not authenticated"⟩, s) ∧
    postTodo now none text s = (⟨401, .message "Not authenticated"⟩, s) ∧
    putTodo sch none id body s = (⟨401, .message "Not authenticated"⟩, s) ∧
    deleteTodoRoute sch none id s = (⟨401, .message "Not authenticated"⟩, s) :=
  ⟨rfl, rfl, rfl, rfl⟩

/-- C3, as stated, fails: Ann posts a text of three blanks and the handler
answers 200 and appends the row. -/
theorem create_blank_text_inserts_row :
    postTodo 30 (some ann) (some "   ") sampleStore
      = (⟨200, .todo (some ⟨4, some "   ", some false, 1, 30⟩)⟩,
         { sampleStore with
             todos := sampleStore.todos ++ [⟨4, some "   ", some false, 1, 30⟩],
             todos_id_seq := 4 }) := by
  decide

/-- C3, amended: called with an authenticated session and a text that is
empty or consists only of whitespace, the create handler does not fail: it
answers 200 with the new row and appends exactly that row, which carries the
text as given, completed = false, the caller as owner and the clock value. -/
theorem create_inserts_blank_text (s : Store) (u : UserRow) (now : Nat) (text : String)
    (hblank : isBlank text = true) :
    postTodo now (some u) (some text) s
      = (⟨200, .todo (some ⟨s.todos_id_seq + 1, some text, some false, u.id, now⟩)⟩,
         { s with
             todos := s.todos ++ [⟨s.todos_id_seq + 1, some text, some false, u.id, now⟩],
             todos_id_seq := s.todos_id_seq + 1 }) := by
  rw [postTodo_accepted now u (some text) s (textAccepted_of_isBlank text hblank)]
  rfl

/-- Witness for C3 amended: a text of a blank, a tab and a newline, posted by
Ann. -/
theorem create_inserts_blank_text_witness :
    isBlank " \t\n" = true ∧
    postTodo 30 (some ann) (some " \t\n") sampleStore
      = (⟨200, .todo (some ⟨4, some " \t\n", some false, 1, 30⟩)⟩,
         { sampleStore with
             todos := sampleStore.todos ++ [⟨4, some " \t\n", some false, 1, 30⟩],
             todos_id_seq := 4 }) :=
  ⟨by decide, create_inserts_blank_text sampleStore ann 30 " \t\n" (by decide)⟩

theorem selectUsersByEmail_pos (s : Store) (e : String) (h : ∃ u ∈ s.users, u.email = e) :
    (selectUsersByEmail s e).length > 0 := by
  obtain ⟨u, hu, hue⟩ := h
  exact List.length_pos_of_mem (List.mem_filter.mpr ⟨hu, decide_eq_true hue⟩)

theorem selectUsersByEmail_nil (s : Store) (e : String) (h : ∀ u ∈ s.users, u.email ≠ e) :
    selectUsersByEmail s e = [] := by
  apply List.filter_eq_nil_iff.mpr
  intro u hu
  simpa using h u hu

/-- C4: when the users table already holds a row with email `e`, register
answers 400 "User already exists", returns the store as it was and does not
call `req.login`. -/
theorem register_existing_email_conflict (B : Bcrypt) (s : Store) (e p n : String)
    (h : ∃ u ∈ s.users, u.email = e) :
    register B e p n s = (⟨400, .message "User already exists"⟩, s, none) := by
  unfold register
  rw [if_pos (selectUsersByEmail_pos s e h)]

/-- Witness for C4: Ann is registered, a second register with her email. -/
theorem register_existing_email_conflict_witness :
    (∃ u ∈ sampleStore.users, u.email = "a@x.com") ∧
    register sampleBcrypt "a@x.com" "other-pw" "Al" sampleStore
      = (⟨400, .message "User already exists"⟩, sampleStore, none) :=
  ⟨⟨ann, by decide, rfl⟩,
   register_existing_email_conflict sampleBcrypt sampleStore "a@x.com" "other-pw" "Al"
     ⟨ann, by decide, rfl⟩⟩

/-- C5, as stated, fails: no user of the sample store has the email
"c@x.com", the sample hash library accepts the empty password against its own
hash, register with the empty password answers 200 with user 3, and the login
with the same email and password right after is answered 400 with no
session. -/
theorem register_then_login_empty_password :
    (∀ u ∈ sampleStore.users, u.email ≠ "c@x.com") ∧
    sampleBcrypt.compare "" (sampleBcrypt.hash "" 10) = true ∧
    (register sampleBcrypt "c@x.com" "" "Cy" sampleStore).1
      = ⟨200, .registered 3 "c@x.com" "Cy"⟩ ∧
    login sampleBcrypt "c@x.com" ""
        (register sampleBcrypt "c@x.com" "" "Cy" sampleStore).2.1
      = (⟨400, .message "Bad Request"⟩, none) := by
  decide

/-- C5, amended: in a store with no user of email `e`, for a non-empty email
`e` and a non-empty password `p`, and a hash library whose compare accepts `p`
against its own hash of `p`, that hash being a non-empty string, register
answers 200 with a new user and a login with the same email and password right
after is verified and answers 200 with a user of the same id. -/
theorem register_then_login_same_id (B : Bcrypt) (s : Store) (e p n : String)
    (hfresh : ∀ u ∈ s.users, u.email ≠ e)
    (hemail : e ≠ "") (hpassword : p ≠ "")
    (hcompare : B.compare p (B.hash p 10) = true)
    (hhash : B.hash p 10 ≠ "") :
    ∃ id s1, register B e p n s = (⟨200, .registered id e n⟩, s1, some id) ∧
      ∃ u, localVerify B e p s1 = .ok u ∧ u.id = id ∧
        login B e p s1 = (⟨200, .user u⟩, some id) := by
  have hnil := selectUsersByEmail_nil s e hfresh
  refine ⟨s.users_id_seq + 1, (insertLocalUser s e (B.hash p 10) n).2, ?_, ?_⟩
  · unfold register
    rw [hnil]
    rfl
  · have hsel : selectUsersByEmail (insertLocalUser s e (B.hash p 10) n).2 e
        = [(insertLocalUser s e (B.hash p 10) n).1] := by
      unfold selectUsersByEmail at hnil ⊢
      simp only [insertLocalUser, List.filter_append, hnil, List.nil_append]
      simp [List.filter_cons]
    have hv : localVerify B e p (insertLocalUser s e (B.hash p 10) n).2
        = .ok (insertLocalUser s e (B.hash p 10) n).1 := by
      unfold localVerify
      rw [hsel]
      simp [insertLocalUser, noPassword, hhash, hcompare]
    refine ⟨(insertLocalUser s e (B.hash p 10) n).1, hv, rfl, ?_⟩
    unfold login
    rw [if_neg (by simp [hemail, hpassword]), hv]
    rfl

/-- Witness for C5 amended: Cy registers in the sample store and logs in. -/
theorem register_then_login_same_id_witness :
    ∃ id s1, register sampleBcrypt "c@x.com" "pw123456" "Cy" sampleStore
        = (⟨200, .registered id "c@x.com" "Cy"⟩, s1, some id) ∧
      ∃ u, localVerify sampleBcrypt "c@x.com" "pw123456" s1 = .ok u ∧ u.id = id ∧
        login sampleBcrypt "c@x.com" "pw123456" s1 = (⟨200, .user u⟩, some id) :=
  register_then_login_same_id sampleBcrypt sampleStore "c@x.com" "pw123456" "Cy"
    (by decide) (by decide) (by decide) (by decide) (by decide)

/-- Line 82 of `server.js` reads an empty stored hash as no password: with a
hash library that returns the empty string, the login after a register is
refused although compare accepts the password. -/
theorem login_refuses_empty_stored_hash :
    emptyHashBcrypt.compare "pw123456" (emptyHashBcrypt.hash "pw123456" 10) = true ∧
    (register emptyHashBcrypt "c@x.com" "pw123456" "Cy" sampleStore).1.status = 200 ∧
    localVerify emptyHashBcrypt "c@x.com" "pw123456"
        (register emptyHashBcrypt "c@x.com" "pw123456" "Cy" sampleStore).2.1
      = .error "Please use Google login" :=
  ⟨by decide, by decide, rfl⟩

theorem orderByCreatedAtDesc_perm (rows : List TodoRow) :
    (orderByCreatedAtDesc rows).Perm rows :=
  List.perm_insertionSort _ rows

theorem orderByCreatedAtDesc_sorted (rows : List TodoRow) :
    (orderByCreatedAtDesc rows).Pairwise (fun a b => b.created_at ≤ a.created_at) :=
  List.sorted_insertionSort newerOrEqual rows

/-- A row strictly newer than all the others comes first in the ordering. -/
theorem orderByCreatedAtDesc_newest_first (l : List TodoRow) (row : TodoRow)
    (h : ∀ t ∈ l, t.created_at < row.created_at) :
    ∃ rest, orderByCreatedAtDesc (l ++ [row]) = row :: rest := by
  have hperm := orderByCreatedAtDesc_perm (l ++ [row])
  have hsorted := orderByCreatedAtDesc_sorted (l ++ [row])
  have hrow : row ∈ orderByCreatedAtDesc (l ++ [row]) := hperm.mem_iff.mpr (by simp)
  cases hx : orderByCreatedAtDesc (l ++ [row]) with
  | nil => rw [hx] at hrow; cases hrow
  | cons x xs =>
    rw [hx] at hrow hsorted hperm
    have hxmem : x ∈ l ++ [row] := hperm.mem_iff.mp (List.mem_cons_self x xs)
    have hle : row.created_at ≤ x.created_at := by
      rcases List.mem_cons.mp hrow with heq | hin
      · rw [heq]
      · exact (List.pairwise_cons.mp hsorted).1 row hin
    rcases List.mem_append.mp hxmem with hl | hr
    · exact absurd (h x hl) (Nat.not_lt.mpr hle)
    · have hxr : x = row := by simpa using hr
      exact ⟨xs, by rw [hxr]⟩

/-- C6, as stated, fails: Ann owns a todo created at time 20; she creates
"Call mum" when the database clock reads 15, or reads 20, and in the list
taken right after the new row comes second, behind the todo of time 20. -/
theorem create_then_list_new_row_second :
    postTodo 15 (some ann) (some "Call mum") sampleStore
      = (⟨200, .todo (some ⟨4, some "Call mum", some false, 1, 15⟩)⟩,
         { sampleStore with
             todos := sampleStore.todos ++ [⟨4, some "Call mum", some false, 1, 15⟩],
             todos_id_seq := 4 }) ∧
    (getTodos (some ann) (postTodo 15 (some ann) (some "Call mum") sampleStore).2).1
      = ⟨200, .todos [dog, ⟨4, some "Call mum", some false, 1, 15⟩, milk]⟩ ∧
    (postTodo 20 (some ann) (some "Call mum") sampleStore).1
      = ⟨200, .todo (some ⟨4, some "Call mum", some false, 1, 20⟩)⟩ ∧
    (getTodos (some ann) (postTodo 20 (some ann) (some "Call mum") sampleStore).2).1
      = ⟨200, .todos [dog, ⟨4, some "Call mum", some false, 1, 20⟩, milk]⟩ := by
  decide

/-- C6, amended: the list answered to an authenticated caller is a permutation
of the rows the caller owns, newest first; and for a text the store accepts,
when the database clock at the insert is later than the creation time of every
todo the caller already owns, create answers 200 with the new row and that row
is the first element of a list taken right after. -/
theorem list_is_owned_rows_newest_first (s : Store) (u : UserRow) (now : Nat)
    (text : Option String)
    (htext : textAccepted text = true)
    (hclock : ∀ t ∈ s.todos, t.user_id = u.id → t.created_at < now) :
    (∃ rows, getTodos (some u) s = (⟨200, .todos rows⟩, s) ∧
      rows.Perm (s.todos.filter (fun t => t.user_id = u.id)) ∧
      rows.Pairwise (fun a b => b.created_at ≤ a.created_at)) ∧
    (∃ row rest, (postTodo now (some u) text s).1 = ⟨200, .todo (some row)⟩ ∧
      (getTodos (some u) (postTodo now (some u) text s).2).1
        = ⟨200, .todos (row :: rest)⟩) := by
  refine ⟨⟨selectTodos s u.id, rfl, orderByCreatedAtDesc_perm _,
    orderByCreatedAtDesc_sorted _⟩, ?_⟩
  have hold : ∀ t ∈ s.todos.filter (fun t => t.user_id = u.id),
      t.created_at < (insertTodo now s text u.id).1.created_at := by
    intro t ht
    have hm := List.mem_filter.mp ht
    exact hclock t hm.1 (by simpa using hm.2)
  obtain ⟨rest, hrest⟩ := orderByCreatedAtDesc_newest_first _ _ hold
  refine ⟨(insertTodo now s text u.id).1, rest, ?_, ?_⟩
  · rw [postTodo_accepted now u text s htext]
  · have hsel : selectTodos (insertTodo now s text u.id).2 u.id
        = orderByCreatedAtDesc
            (s.todos.filter (fun t => t.user_id = u.id)
              ++ [(insertTodo now s text u.id).1]) := by
      unfold selectTodos
      simp [insertTodo, List.filter_append, List.filter_cons]
    rw [postTodo_accepted now u text s htext]
    show (⟨200, .todos (selectTodos (insertTodo now s text u.id).2 u.id)⟩ : Response) = _
    rw [hsel, hrest]

/-- Witness for C6 amended: Ann owns todos created at 10 and 20 and creates
one at 30. -/
theorem list_is_owned_rows_newest_first_witness :
    (∃ rows, getTodos (some ann) sampleStore = (⟨200, .todos rows⟩, sampleStore) ∧
      rows.Perm (sampleStore.todos.filter (fun t => t.user_id = ann.id)) ∧
      rows.Pairwise (fun a b => b.created_at ≤ a.created_at)) ∧
    (∃ row rest,
      (postTodo 30 (some ann) (some "Call mum") sampleStore).1 = ⟨200, .todo (some row)⟩ ∧
      (getTodos (some ann) (postTodo 30 (some ann) (some "Call mum") sampleStore).2).1
        = ⟨200, .todos (row :: rest)⟩) :=
  list_is_owned_rows_newest_first sampleStore ann 30 (some "Call mum") (by decide)
    (by decide)

theorem deleteTodo_of_no_match (s : Store) (id uid : Nat)
    (h : ∀ t ∈ s.todos, ¬ (t.id = id ∧ t.user_id = uid)) : deleteTodo s id uid = s := by
  have hf : s.todos.filter (fun t => ¬ (t.id = id ∧ t.user_id = uid)) = s.todos :=
    List.filter_eq_self.mpr (fun t ht => decide_eq_true (h t ht))
  unfold deleteTodo
  rw [hf]

theorem deleteTodo_twice (s : Store) (id uid : Nat) :
    deleteTodo (deleteTodo s id uid) id uid = deleteTodo s id uid := by
  apply deleteTodo_of_no_match
  intro t ht
  have hm := List.mem_filter.mp ht
  exact of_decide_eq_true hm.2

/-- C7, as stated, fails: with a 32-bit id column the delete of id 2^31, and
with a 64-bit id column the delete of id 2^63, makes the statement throw; the
route answers 500 "Server error" and the store is as it was. -/
theorem delete_out_of_range_id_is_500 :
    deleteTodoRoute serialSchema (some ann) 2147483648 sampleStore
      = (⟨500, .message "Server error"⟩, sampleStore) ∧
    deleteTodoRoute bigserialSchema (some ann) 9223372036854775808 sampleStore
      = (⟨500, .message "Server error"⟩, sampleStore) := by
  decide

/-- C7, amended: for every store, authenticated caller and id that the id
column holds, delete answers 200 "Todo deleted"; when the caller owns no todo
with that id the store is returned as it was; and a second delete of the same
id answers 200 again and returns the store the first one produced. -/
theorem delete_is_idempotent (sch : Schema) (s : Store) (u : UserRow) (id : Nat)
    (hid : id < sch.idBound) :
    (deleteTodoRoute sch (some u) id s).1 = ⟨200, .message "Todo deleted"⟩ ∧
    ((∀ t ∈ s.todos, ¬ (t.id = id ∧ t.user_id = u.id)) →
      (deleteTodoRoute sch (some u) id s).2 = s) ∧
    deleteTodoRoute sch (some u) id (deleteTodoRoute sch (some u) id s).2
      = (⟨200, .message "Todo deleted"⟩, (deleteTodoRoute sch (some u) id s).2) := by
  have hacc : idAccepted sch id = true := decide_eq_true hid
  rw [deleteTodoRoute_accepted sch u id s hacc]
  refine ⟨rfl, fun h => deleteTodo_of_no_match s id u.id h, ?_⟩
  rw [deleteTodoRoute_accepted sch u id _ hacc, deleteTodo_twice]

/-- Witness for C7 amended: Ann deletes todo 3, which Bob owns: a success that
changes nothing, twice. -/
theorem delete_is_idempotent_witness :
    (deleteTodoRoute serialSchema (some ann) 3 sampleStore).1
      = ⟨200, .message "Todo deleted"⟩ ∧
    (deleteTodoRoute serialSchema (some ann) 3 sampleStore).2 = sampleStore ∧
    deleteTodoRoute serialSchema (some ann) 3
        (deleteTodoRoute serialSchema (some ann) 3 sampleStore).2
      = (⟨200, .message "Todo deleted"⟩,
         (deleteTodoRoute serialSchema (some ann) 3 sampleStore).2) :=
  ⟨(delete_is_idempotent serialSchema sampleStore ann 3 (by decide)).1,
   (delete_is_idempotent serialSchema sampleStore ann 3 (by decide)).2.1 (by decide),
   (delete_is_idempotent serialSchema sampleStore ann 3 (by decide)).2.2⟩

/-- C8, as stated, fails: Ann updates her todo 2 (completed = true) with a
text and no completed field, and the stored flag becomes NULL; she updates it
with a completed field and no text, and the stored text becomes NULL. -/
theorem update_omitted_field_becomes_null :
    dog ∈ sampleStore.todos ∧ dog.user_id = ann.id ∧
    dog.completed = some true ∧ dog.text = some "Walk dog" ∧
    (putTodo serialSchema (some ann) 2 ⟨some "Walk cat", none⟩ sampleStore).2.todos
      = [milk, ⟨2, some "Walk cat", none, 1, 20⟩, rent] ∧
    (putTodo serialSchema (some ann) 2 ⟨none, some false⟩ sampleStore).2.todos
      = [milk, ⟨2, none, some false, 1, 20⟩, rent] := by
  decide

/-- C8, amended: in all cases an update leaves every row its id, owner and
creation timestamp and leaves the users table alone; and for an id the id
column holds and a text the store accepts, it answers 200 and assigns both
columns from the request body, a supplied field as given and an omitted field
as NULL, on the rows matching id and owner, the other rows untouched. -/
theorem update_assigns_both_columns (sch : Schema) (s : Store) (u : UserRow) (id : Nat)
    (body : UpdateBody) :
    (putTodo sch (some u) id body s).2.todos.map (fun t => (t.id, t.user_id, t.created_at))
      = s.todos.map (fun t => (t.id, t.user_id, t.created_at)) ∧
    (putTodo sch (some u) id body s).2.users = s.users ∧
    (id < sch.idBound → textAccepted body.text = true →
      (putTodo sch (some u) id body s).1.status = 200 ∧
      (putTodo sch (some u) id body s).2.todos
        = s.todos.map (fun t => if t.id = id ∧ t.user_id = u.id
            then ⟨t.id, body.text, body.completed, t.user_id, t.created_at⟩ else t)) := by
  refine ⟨?_, ?_, ?_⟩
  · cases h : (idAccepted sch id && textAccepted body.text) with
    | false => rw [putTodo_rejected sch u id body s h]
    | true =>
      rw [putTodo_accepted sch u id body s h]
      show (s.todos.map _).map _ = s.todos.map _
      rw [List.map_map]
      apply List.map_congr_left
      intro t _
      by_cases ht : (t.id = id ∧ t.user_id = u.id)
      · simp [ht, setTextCompleted]
      · simp [ht]
  · cases h : (idAccepted sch id && textAccepted body.text) with
    | false => rw [putTodo_rejected sch u id body s h]
    | true => rw [putTodo_accepted sch u id body s h]; rfl
  · intro hid htext
    have h : (idAccepted sch id && textAccepted body.text) = true := by
      simp [idAccepted, hid, htext]
    rw [putTodo_accepted sch u id body s h]
    refine ⟨rfl, ?_⟩
    show s.todos.map _ = s.todos.map _
    apply List.map_congr_left
    intro t _
    by_cases ht : (t.id = id ∧ t.user_id = u.id)
    · simp [ht, setTextCompleted]
    · simp [ht]

/-- Witness for C8 amended: Ann updates her todo 2 with a text and no
completed field. -/
theorem update_assigns_both_columns_witness :
    (putTodo serialSchema (some ann) 2 ⟨some "Walk cat", none⟩ sampleStore).1.status = 200 ∧
    (putTodo serialSchema (some ann) 2 ⟨some "Walk cat", none⟩ sampleStore).2.todos
      = sampleStore.todos.map (fun t => if t.id = 2 ∧ t.user_id = ann.id
          then ⟨t.id, some "Walk cat", none, t.user_id, t.created_at⟩ else t) :=
  (update_assigns_both_columns serialSchema sampleStore ann 2 ⟨some "Walk cat", none⟩).2.2
    (by decide) (by decide)

/-- C9, as stated, fails: when the logout request is rejected the state keeps
its user and its items. -/
theorem logout_rejected_keeps_state :
    (logout .rejected ⟨some ann, [⟨1, some "Buy milk"⟩], false⟩).user = some ann ∧
    (logout .rejected ⟨some ann, [⟨1, some "Buy milk"⟩], false⟩).items
      = [⟨1, some "Buy milk"⟩] := by
  decide

/-- C9, amended: when the logout request resolves the state has no user and
no items (loading untouched); when it is rejected the state is unchanged. -/
theorem logout_clears_on_success_only (st : AppState) :
    logout .resolved st = ⟨none, [], st.loading⟩ ∧ logout .rejected st = st :=
  ⟨rfl, rfl⟩

/-- The register route keeps the emails of table `users` pairwise distinct:
it looks the email up before it inserts. -/
theorem register_preserves_emailsUnique (B : Bcrypt) (s : Store) (e p n : String)
    (h : emailsUnique s) : emailsUnique (register B e p n s).2.1 := by
  unfold register
  by_cases hex : (selectUsersByEmail s e).length > 0
  · rw [if_pos hex]; exact h
  · rw [if_neg hex]
    have hnil : selectUsersByEmail s e = [] := by
      cases hsel : selectUsersByEmail s e with
      | nil => rfl
      | cons x xs => rw [hsel] at hex; simp at hex
    have hfresh : ∀ u ∈ s.users, u.email ≠ e := by
      intro u hu hue
      have : u ∈ selectUsersByEmail s e := List.mem_filter.mpr ⟨hu, decide_eq_true hue⟩
      rw [hnil] at this
      cases this
    show ((s.users ++ [(insertLocalUser s e (B.hash p 10) n).1]).map
      (fun u : UserRow => u.email)).Nodup
    rw [List.map_append, List.nodup_append]
    refine ⟨h, by simp, ?_⟩
    intro x hx1 hx2
    obtain ⟨u, hu, hux⟩ := List.mem_map.mp hx1
    have hxe : x = e := by simpa using hx2
    exact hfresh u hu (hux.trans hxe)

/-- C10 fails on the Google path: Ann is registered with "a@x.com"; a Google
profile with a new provider id and the same email is inserted as a second row,
so two users share the email. -/
theorem google_login_duplicates_email :
    emailsUnique sampleStore ∧
    selectUsersByGoogleId sampleStore "g-42" = [] ∧
    (googleVerify ⟨"g-42", "a@x.com", "Ann G"⟩ sampleStore).2.users
      = [ann, bob, ⟨3, some "g-42", "a@x.com", none, "Ann G"⟩] ∧
    ¬ emailsUnique (googleVerify ⟨"g-42", "a@x.com", "Ann G"⟩ sampleStore).2 := by
  decide

end TodoWebsite
